import Mathlib

/-!
Verification of the feed ingestion and normalization pipeline of the
rss-reader repository (`utils/rss.py`, `utils/citation.py`, `app.py`).

Feed entries produced by the feed-parsing library are loosely typed
Python dictionaries; we embed them as association lists over a dynamic
value type `Val` mirroring the Python values the code inspects
(None, str, int, list, dict).  Operations that can raise in Python are
modelled in the `Except Unit` monad; a `try/except` block in the source
becomes an explicit catch combinator, so "never propagates an exception"
is the statement that a function's result is always `.ok`.

External library capabilities are parameters:
  * `soupImg : String → Option String` — BeautifulSoup's "first <img src>
    in this HTML, if any" (used by `_first_img_from_summary`);
  * `plainText : String → String` — BeautifulSoup's
    `get_text(' ', strip=True)` plain-text conversion;
  * `parseFeed : String → List RawEntry` — `feedparser.parse(url).entries`;
  * `parseDate : String → Option DateTime` — `dateutil.parser.parse`.
Theorems quantify over these parameters, so nothing proved depends on a
particular choice for them.
-/

namespace Rss

/-- Dynamic Python value, covering the shapes the pipeline inspects. -/
inductive Val where
  | vnone : Val
  | vstr : String → Val
  | vint : Int → Val
  | vlist : List Val → Val
  | vdict : List (String × Val) → Val

/-- A raw feed entry: a string-keyed dictionary of dynamic values
(feedparser exposes entries both as mappings and via attribute access,
which read the same underlying keys). -/
abbrev RawEntry := List (String × Val)

/-- First-match association-list lookup (Python dict keys are unique, so
first match is the only match). -/
def assocGet (k : String) : List (String × Val) → Option Val
  | [] => none
  | (k2, v) :: rest => if k2 = k then some v else assocGet k rest

/-- `d.get(k, default)`. -/
def pyGetD (e : List (String × Val)) (k : String) (d : Val) : Val :=
  match assocGet k e with
  | some v => v
  | none => d

/-- `d.get(k)` (default `None`). -/
def pyGet (e : List (String × Val)) (k : String) : Val :=
  pyGetD e k .vnone

/-- Python truthiness of a value. -/
def pyTruthy : Val → Bool
  | .vnone => false
  | .vstr s => !s.isEmpty
  | .vint n => n != 0
  | .vlist xs => !xs.isEmpty
  | .vdict kvs => !kvs.isEmpty

/-- Python `a or b`. -/
def pyOr (a b : Val) : Val :=
  if pyTruthy a then a else b

/-- `isinstance(v, list)`. -/
def isList : Val → Bool
  | .vlist _ => true
  | _ => false

/-- `isinstance(v, dict)`. -/
def isDict : Val → Bool
  | .vdict _ => true
  | _ => false

/-- `isinstance(v, str)`. -/
def isStr : Val → Bool
  | .vstr _ => true
  | _ => false

/-- `str(v)`.  Faithful on the scalar values the pipeline actually
stringifies; container renderings are abbreviated (no claim inspects the
`str()` of a list or dict, only that it is not an image MIME type). -/
def pyStr : Val → String
  | .vnone => "None"
  | .vstr s => s
  | .vint n => toString n
  | .vlist _ => "[...]"
  | .vdict _ => "\x7b...\x7d"

/-- `.get(k)` on a value known (or assumed) to be a dict; every use in
the source is guarded by an `isinstance(·, dict)` check. -/
def dGet (v : Val) (k : String) : Val :=
  match v with
  | .vdict kvs => pyGet kvs k
  | _ => .vnone

/-- `v[i]` — subscripting, which raises on out-of-range indices and on
non-subscriptable values. -/
def pySub (v : Val) (i : Nat) : Except Unit Val :=
  match v with
  | .vlist xs =>
      match xs.get? i with
      | some x => .ok x
      | none => .error ()
  | .vstr s =>
      match s.toList.get? i with
      | some c => .ok (.vstr (String.mk [c]))
      | none => .error ()
  | _ => .error ()

/-- `v[k]` — dict subscripting by key, raising `KeyError`/`TypeError`
when the key is absent or the value is not a dict. -/
def pyKey (v : Val) (k : String) : Except Unit Val :=
  match v with
  | .vdict kvs =>
      match assocGet k kvs with
      | some x => .ok x
      | none => .error ()
  | _ => .error ()

/-- `for x in v` — iteration, raising `TypeError` on non-iterables.
Iterating a string yields its characters, a dict its keys. -/
def pyIter (v : Val) : Except Unit (List Val) :=
  match v with
  | .vlist xs => .ok xs
  | .vstr s => .ok (s.toList.map fun c => .vstr (String.mk [c]))
  | .vdict kvs => .ok (kvs.map fun kv => Val.vstr kv.1)
  | _ => .error ()

/-- A naive wall-clock datetime as built by `datetime(y, m, d, h, mi, s)`. -/
structure DateTime where
  year : Int
  month : Int
  day : Int
  hour : Int
  minute : Int
  second : Int
deriving DecidableEq, Repr

/-- Zero-pad the decimal rendering of a (nonnegative) integer to `w`
characters, as `strftime` field formatting does. -/
def padNum (w : Nat) (n : Int) : String :=
  let s := toString n
  String.mk (List.replicate (w - s.length) '0') ++ s

/-- `dt.strftime("%Y-%m-%d")` (year zero-padded to four digits, as on
platforms that pad `%Y`; feed years are four-digit in practice). -/
def strftimeYmd (d : DateTime) : String :=
  padNum 4 d.year ++ "-" ++ padNum 2 d.month ++ "-" ++ padNum 2 d.day

/-- English month name for `strftime("%B")`. -/
def monthName : Int → String
  | 1 => "January"
  | 2 => "February"
  | 3 => "March"
  | 4 => "April"
  | 5 => "May"
  | 6 => "June"
  | 7 => "July"
  | 8 => "August"
  | 9 => "September"
  | 10 => "October"
  | 11 => "November"
  | 12 => "December"
  | _ => ""

/-- `dt.strftime("%Y, %B %d")` as used by the citation builder. -/
def strftimeYBd (d : DateTime) : String :=
  toString d.year ++ ", " ++ monthName d.month ++ " " ++ padNum 2 d.day

/-- The integer content of a value, if it is an int (Python `datetime`
rejects non-int constructor arguments with `TypeError`). -/
def intOf : Val → Option Int
  | .vint n => some n
  | _ => none

/-- Gregorian leap-year test, as in `calendar.isleap`. -/
def leapYear (y : Int) : Bool :=
  y % 4 == 0 && (y % 100 != 0 || y % 400 == 0)

/-- Days in a month, as validated by the `datetime` constructor. -/
def daysInMonth (y m : Int) : Int :=
  if m == 2 then (if leapYear y then 29 else 28)
  else if m == 4 || m == 6 || m == 9 || m == 11 then 30
  else 31

/-- Range validity enforced by the `datetime` constructor
(`ValueError` outside these bounds). -/
def dtValid (y m d h mi s : Int) : Bool :=
  1 ≤ y && y ≤ 9999 && 1 ≤ m && m ≤ 12 && 1 ≤ d && d ≤ daysInMonth y m &&
  0 ≤ h && h ≤ 23 && 0 ≤ mi && mi ≤ 59 && 0 ≤ s && s ≤ 59

/-- `datetime(*v[:6])`: succeeds exactly when `v` is a list whose first
(up to six) elements are ints, at least year/month/day are supplied, and
the fields are in range; anything else raises (`TypeError`/`ValueError`). -/
def dtOf (v : Val) : Except Unit DateTime :=
  match v with
  | .vlist xs =>
      match (xs.take 6).mapM intOf with
      | some (y :: m :: d :: rest) =>
          let h := rest.getD 0 0
          let mi := rest.getD 1 0
          let s := rest.getD 2 0
          if dtValid y m d h mi s then .ok ⟨y, m, d, h, mi, s⟩ else .error ()
      | _ => .error ()
  | _ => .error ()

/-- `try: … except: None` around a datetime conversion. -/
def caught (x : Except Unit DateTime) : Option DateTime :=
  match x with
  | .ok d => some d
  | .error _ => none

/-- `_extract_published(entry)` from `utils/rss.py`: prefer the
`published_parsed` breakdown when it is truthy (a failed conversion is
caught to `None` and — because of the `elif` — `updated_parsed` is then
not consulted); otherwise try `updated_parsed`; when no datetime was
obtained, the display value falls back to the raw `published` or
`updated` field (`""` when neither is truthy). -/
def extract_publishedE (e : RawEntry) : Except Unit (Option DateTime × Val) := do
  let dt ←
    if pyTruthy (pyGet e "published_parsed") then
      pure (caught (dtOf (pyGet e "published_parsed")))
    else if pyTruthy (pyGet e "updated_parsed") then
      pure (caught (dtOf (pyGet e "updated_parsed")))
    else
      pure none
  match dt with
  | some d => pure (some d, Val.vstr (strftimeYmd d))
  | none => pure (none, pyOr (pyGet e "published") (pyOr (pyGet e "updated") (.vstr "")))

/-- The value `_extract_published` returns to its caller. -/
def extract_published (e : RawEntry) : Option DateTime × Val :=
  match extract_publishedE e with
  | .ok p => p
  | .error _ => (none, .vstr "")

/-- `_extract_author(entry)` from `utils/rss.py`: direct `author` field,
then Dublin-Core `dc_creator`, then the first element of an `authors`
list — its `name` sub-field when it is a dict, itself when it is a
string.  The `authors[0]` subscript is guarded by the truthiness check,
not by a `try`. -/
def extract_authorE (e : RawEntry) : Except Unit Val :=
  if pyTruthy (pyGet e "author") then
    .ok (pyGet e "author")
  else if pyTruthy (pyGet e "dc_creator") then
    .ok (pyGet e "dc_creator")
  else
    let authors := pyGet e "authors"
    if isList authors && pyTruthy authors then
      match pySub authors 0 with
      | .ok first =>
          if isDict first && pyTruthy (dGet first "name") then
            .ok (dGet first "name")
          else if isStr first then
            .ok first
          else .ok .vnone
      | .error err => .error err
    else .ok .vnone

/-- The value `_extract_author` returns to its caller. -/
def extract_author (e : RawEntry) : Val :=
  match extract_authorE e with
  | .ok v => v
  | .error _ => .vnone

/-- `_first_img_from_summary(summary_html)` from `utils/rss.py`:
falsy input gives `None`; a string is parsed by BeautifulSoup (modelled
by `soupImg`); a truthy non-string makes BeautifulSoup raise, which the
function's own `try` catches to `None`. -/
def first_img_from_summary (soupImg : String → Option String) (v : Val) : Option String :=
  if !pyTruthy v then none
  else
    match v with
    | .vstr s => soupImg s
    | _ => none

/-- `media_thumbnail` block of `_extract_thumbnail`: when the field is a
nonempty list whose first element is a dict with a truthy `url`, return
that url. -/
def thumbA (e : RawEntry) : Except Unit (Option Val) := do
  let mt := pyGet e "media_thumbnail"
  if isList mt && pyTruthy mt then
    let first ← pySub mt 0
    if isDict first then
      let url := dGet first "url"
      if pyTruthy url then return some url
      else return none
    else return none
  else return none

/-- `medium in (None, "image")`. -/
def mediumOk : Val → Bool
  | .vnone => true
  | .vstr s => s == "image"
  | _ => false

/-- Loop body of the `media_content` block. -/
def thumbBloop : List Val → Except Unit (Option Val)
  | [] => pure none
  | m :: rest =>
      if isDict m && pyTruthy (dGet m "url") then
        if mediumOk (dGet m "medium") then do
          let u ← pyKey m "url"
          pure (some u)
        else thumbBloop rest
      else thumbBloop rest

/-- `media_content` block of `_extract_thumbnail`: first dict entry with
a truthy `url` whose `medium` is unset or `"image"`. -/
def thumbB (e : RawEntry) : Except Unit (Option Val) := do
  let mc := pyGet e "media_content"
  if isList mc then
    match mc with
    | .vlist ms => thumbBloop ms
    | _ => pure none
  else pure none

/-- Loop body of the enclosure-link block. -/
def thumbCloop : List Val → Except Unit (Option Val)
  | [] => pure none
  | l :: rest =>
      if isDict l && (match dGet l "rel" with | .vstr s => s == "enclosure" | _ => false) then
        if (pyStr (dGetD l "type" (.vstr ""))).startsWith "image/" && pyTruthy (dGet l "href") then do
          let h ← pyKey l "href"
          pure (some h)
        else thumbCloop rest
      else thumbCloop rest
where
  /-- `.get(k, default)` on a value guarded to be a dict. -/
  dGetD (v : Val) (k : String) (d : Val) : Val :=
    match v with
    | .vdict kvs => pyGetD kvs k d
    | _ => d

/-- Enclosure block of `_extract_thumbnail`: iterate `entry.links`
(default `[]`; iterating a non-iterable raises, caught by the block's
`try`), returning the `href` of the first enclosure-rel dict whose MIME
type starts with `image/`. -/
def thumbC (e : RawEntry) : Except Unit (Option Val) := do
  let ls ← pyIter (pyGetD e "links" (.vlist []))
  thumbCloop ls

/-- Final block of `_extract_thumbnail`: first `<img src>` of the raw
summary HTML. -/
def thumbD (soupImg : String → Option String) (e : RawEntry) : Option Val :=
  match first_img_from_summary soupImg (pyGetD e "summary" (.vstr "")) with
  | some s => some (.vstr s)
  | none => none

/-- Sequencing of the `try/except: pass` blocks of `_extract_thumbnail`:
a block that returned a value ends the function; a block that completed
without returning, or raised (the exception being caught by its
`except: pass`), falls through to the next block. -/
def thumbSeq (blk next : Except Unit (Option Val)) : Except Unit (Option Val) :=
  match blk with
  | .ok (some v) => .ok (some v)
  | .ok none => next
  | .error _ => next

/-- `_extract_thumbnail(entry)` from `utils/rss.py`: media-thumbnail,
then media-content, then enclosure link, then summary `<img>`
(the last block's `except` returns `None`, but the block is total). -/
def extract_thumbnailE (soupImg : String → Option String) (e : RawEntry) :
    Except Unit (Option Val) :=
  thumbSeq (thumbA e) (thumbSeq (thumbB e) (thumbSeq (thumbC e) (.ok (thumbD soupImg e))))

/-- The value `_extract_thumbnail` returns to its caller (`None` encoded
as `vnone`). -/
def extract_thumbnail (soupImg : String → Option String) (e : RawEntry) : Val :=
  match extract_thumbnailE soupImg e with
  | .ok (some v) => v
  | .ok none => .vnone
  | .error _ => .vnone

/-- Python `needle in haystack` substring containment on strings:
the needle's characters form a contiguous sublist of the haystack's. -/
def substrB (needle haystack : String) : Bool :=
  decide (needle.toList <:+: haystack.toList)

/-- `entry.get("summary", "") or entry.get("description", "")`
(line 176 of `utils/rss.py`). -/
def summaryHtml (e : RawEntry) : Val :=
  pyOr (pyGetD e "summary" (.vstr "")) (pyGetD e "description" (.vstr ""))

/-- The string handed to BeautifulSoup on line 179:
`summary_html or ''`.  A truthy non-string would make BeautifulSoup
raise in the source (no `try` surrounds the entry loop); that case is
outside every claim and is modelled as `""`. -/
def soupArg (v : Val) : String :=
  match pyOr v (.vstr "") with
  | .vstr s => s
  | _ => ""

/-- `f"{title} {BeautifulSoup(summary_html or '', …).get_text(' ', strip=True)}".lower()`
— the keyword-filter match text of line 179. -/
def filterText (plainText : String → String) (e : RawEntry) : String :=
  (pyStr (pyGetD e "title" (.vstr "")) ++ " " ++ plainText (soupArg (summaryHtml e))).toLower

/-- The keyword filter of lines 180–183, given the already-lowercased
per-feed include and exclude keyword lists: reject when some exclude
keyword occurs in the match text, else reject when the include list is
nonempty and no include keyword occurs, else keep. -/
def keepEntry (plainText : String → String) (inc exc : List String) (e : RawEntry) : Bool :=
  let t := filterText plainText e
  if !exc.isEmpty && exc.any (fun k => substrB k t) then false
  else if !inc.isEmpty && !inc.any (fun k => substrB k t) then false
  else true

/-- One configured feed, with the shape documented in the
`fetch_and_parse_feeds` docstring (`url`, `category`,
`filters.include`, `filters.exclude`, `max_items`, `snippet_length`);
absent keys are `none`. -/
structure FeedSource where
  url : Option String
  category : Option String
  filters_include : List String
  filters_exclude : List String
  max_items : Option Int
  snippet_length : Option Int

/-- One normalized article dict, as built on lines 189–200 of
`utils/rss.py`. -/
structure Article where
  title : Val
  link : Val
  published : Val
  published_parsed : Option DateTime
  author : Val
  summary : Val
  source : String
  feed_url : String
  snippet_length : Option Int
  thumbnail : Val

/-- The entry normalizer: the body of the per-entry loop of
`fetch_and_parse_feeds` (lines 174–200) for an entry that survived the
filter.  `title` defaults to `""` when absent; `link` is
`entry.get("link")`, i.e. `None` when absent. -/
def normalizeEntry (soupImg : String → Option String)
    (category u : String) (snippet : Option Int) (e : RawEntry) : Article :=
  let pub := extract_published e
  { title := pyGetD e "title" (.vstr "")
    link := pyGet e "link"
    published := pub.2
    published_parsed := pub.1
    author := extract_author e
    summary := summaryHtml e
    source := category
    feed_url := u
    snippet_length := snippet
    thumbnail := extract_thumbnail soupImg e }

/-- The uncapped per-feed result: skip the feed when its `url` is
missing or empty (`if not url: continue`, before any fetch); otherwise
fetch its entries, keep the ones passing the keyword filter (keyword
lists lowercased at setup, lines 154–155), and normalize each.
Cache writing (lines 164–170) is a diagnostics-only side effect whose
failures are swallowed; it does not influence the result. -/
def feedItems (plainText : String → String) (soupImg : String → Option String)
    (parseFeed : String → List RawEntry) (feed : FeedSource) : List Article :=
  match feed.url with
  | none => []
  | some u =>
      if u = "" then []
      else
        let category := feed.category.getD "Uncategorized"
        let inc := feed.filters_include.map String.toLower
        let exc := feed.filters_exclude.map String.toLower
        ((parseFeed u).filter (keepEntry plainText inc exc)).map
          (normalizeEntry soupImg category u feed.snippet_length)

/-- The per-feed item cap of lines 203–205:
`if isinstance(max_items, int) and max_items > 0: items = items[:max_items]`. -/
def processFeed (plainText : String → String) (soupImg : String → Option String)
    (parseFeed : String → List RawEntry) (feed : FeedSource) : List Article :=
  let items := feedItems plainText soupImg parseFeed feed
  match feed.max_items with
  | some n => if 0 < n then items.take n.toNat else items
  | none => items

/-- `fetch_and_parse_feeds(feeds, cache_dir)` from `utils/rss.py`: the
feed loop, extending a flat accumulator with each feed's capped items
and returning the concatenation. -/
def fetch_and_parse_feeds (plainText : String → String) (soupImg : String → Option String)
    (parseFeed : String → List RawEntry) : List FeedSource → List Article
  | [] => []
  | feed :: rest =>
      processFeed plainText soupImg parseFeed feed ++
        fetch_and_parse_feeds plainText soupImg parseFeed rest

/-- `build_apa_citation(entry, author_overrides)` from
`utils/citation.py`.  `parseDate` models `dateutil.parser.parse`, which
raises on non-string input (in particular on `None`, i.e. a missing
`published`); the `try` catches any failure to `"[n.d.]"`.  Overrides
are modelled as a string-keyed dict (they map source names). -/
def build_apa_citation (parseDate : String → Option DateTime)
    (entry : RawEntry) (author_overrides : List (String × Val)) : String :=
  let overrideVal :=
    match pyGet entry "source" with
    | .vstr s => pyGet author_overrides s
    | _ => .vnone
  let author := pyOr (pyGet entry "author") (pyOr overrideVal (.vstr "[Author]"))
  let date :=
    match pyGet entry "published" with
    | .vstr s =>
        match parseDate s with
        | some d => strftimeYBd d
        | none => "[n.d.]"
    | _ => "[n.d.]"
  let title := pyGetD entry "title" (.vstr "[No title]")
  let source := pyGetD entry "source" (.vstr "[Source]")
  let url := pyGet entry "link"
  pyStr author ++ ". (" ++ date ++ "). " ++ pyStr title ++ ". " ++
    pyStr source ++ ". " ++ pyStr url

/-! ### Auxiliary definitions used by the statements below -/

/-- Whether an `Except` computation completed without raising. -/
def isOkB : Except Unit α → Bool
  | .ok _ => true
  | .error _ => false

/-- A thumbnail block that did not produce a value: it either completed
without returning or raised (and was caught). -/
def noHit (x : Except Unit (Option Val)) : Prop :=
  x = .ok none ∨ x = .error ()

/-- The raw-string display fallback of `_extract_published` (line 124):
`entry.get("published") or entry.get("updated") or ""`. -/
def rawFallback (e : RawEntry) : Val :=
  pyOr (pyGet e "published") (pyOr (pyGet e "updated") (.vstr ""))

/-! ### Concrete test fixtures -/

/-- A feed source with no keyword filters and no cap. -/
def srcA : FeedSource := ⟨some "https://a.example/feed", some "Tech", [], [], none, none⟩

/-- A second feed source with no keyword filters and no cap. -/
def srcB : FeedSource := ⟨some "https://b.example/feed", some "Science", [], [], none, none⟩

/-- A feed source whose `url` is absent. -/
def noUrlSrc : FeedSource := ⟨none, some "Tech", [], [], none, none⟩

/-- A fetcher under which both `srcA` and `srcB` yield one entry with
the same link `https://x.com/a`. -/
def dupFetch : String → List RawEntry := fun u =>
  if u = "https://a.example/feed" then
    [[("link", .vstr "https://x.com/a"), ("title", .vstr "from A")]]
  else
    [[("link", .vstr "https://x.com/a"), ("title", .vstr "from B")]]

/-- Predicate: this article's link is `https://x.com/a`. -/
def linkIsXA (a : Article) : Bool :=
  match a.link with
  | .vstr s => s == "https://x.com/a"
  | _ => false

/-- An entry whose `published_parsed` breakdown is present but invalid
(month 13), whose `updated_parsed` breakdown is valid, and whose raw
`published` string is longer than ten characters. -/
def entryBadPub : RawEntry :=
  [("published_parsed", .vlist [.vint 2024, .vint 13, .vint 1]),
   ("updated_parsed", .vlist [.vint 2023, .vint 5, .vint 6]),
   ("published", .vstr "2024-01-02T03:04:05Z")]

/-- An entry with a valid `published_parsed` breakdown. -/
def entryGoodPub : RawEntry :=
  [("published_parsed", .vlist [.vint 2024, .vint 1, .vint 2, .vint 3, .vint 4, .vint 5])]

/-- Ten raw entries with distinct titles and links, all passing an
empty keyword filter. -/
def tenEntries : List RawEntry :=
  (List.range 10).map fun i =>
    [("title", .vstr ("story " ++ toString i)),
     ("link", .vstr ("https://x.com/" ++ toString i))]

/-- A feed source with `max_items = 3`. -/
def capSrc : FeedSource := ⟨some "https://cap.example/feed", some "Tech", [], [], some 3, none⟩

/-- A fetcher yielding `tenEntries` for every url. -/
def capFetch : String → List RawEntry := fun _ => tenEntries

/-- An entry carrying both a media-thumbnail and an inline `<img>` in
its summary HTML. -/
def thumbBothEntry : RawEntry :=
  [("media_thumbnail", .vlist [.vdict [("url", .vstr "https://cdn.example/mt.jpg")]]),
   ("summary", .vstr "<p><img src='https://cdn.example/inline.jpg'></p>")]

/-- A BeautifulSoup model that finds an inline image in any HTML. -/
def imgAlways : String → Option String := fun _ => some "https://cdn.example/inline.jpg"

/-- The citation-scenario article: author unset, source `Example`,
no published date, title `a story`, link `https://x.com/a`. -/
def citeEntry : RawEntry :=
  [("title", .vstr "a story"), ("link", .vstr "https://x.com/a"),
   ("source", .vstr "Example")]

/-- An entry with a title but no `link` key. -/
def noLinkEntry : RawEntry := [("title", .vstr "t")]

/-! ### Helper lemmas -/

/-- The aggregation loop is concatenation of the per-feed results. -/
theorem fetch_eq_flatten (pt : String → String) (si : String → Option String)
    (pf : String → List RawEntry) (feeds : List FeedSource) :
    fetch_and_parse_feeds pt si pf feeds =
      (feeds.map (processFeed pt si pf)).flatten := by
  induction feeds with
  | nil => rfl
  | cons f rest ih => simp [fetch_and_parse_feeds, ih]

/-! ### C1 — aggregation does not deduplicate by link -/

/-- C1: counterexample.  Two FeedSources each yielding one entry with
the identical link `https://x.com/a` — the aggregation output contains
two Articles with that link, not exactly one, so `fetch_and_parse_feeds`
does not deduplicate by link. -/
theorem dedup_claim_counterexample :
    (fetch_and_parse_feeds id (fun _ => none) dupFetch [srcA, srcB]).countP linkIsXA = 2 ∧
    (2 : Nat) ≠ 1 := by
  constructor
  · rfl
  · decide

/-- C1 (amended): the aggregation pipeline performs no deduplication:
for every predicate on Articles (in particular, "has link L"), the
number of matches in the output of `fetch_and_parse_feeds` is the sum of
the per-feed match counts, so an Article with a repeated link appears
once per surviving entry that bears it. -/
theorem no_dedup_concat_count (pt : String → String) (si : String → Option String)
    (pf : String → List RawEntry) (feeds : List FeedSource) (p : Article → Bool) :
    (fetch_and_parse_feeds pt si pf feeds).countP p =
      (feeds.map fun f => (processFeed pt si pf f).countP p).sum := by
  induction feeds with
  | nil => rfl
  | cons f rest ih => simp [fetch_and_parse_feeds, List.countP_append, ih]

/-! ### C6 — citation fallback -/

/-- C6: counterexample.  On the Article of the claim (author unset,
source/category `Example`, no date, title `a story`, link
`https://x.com/a`) the citation builder produces
`[Author]. ([n.d.]). a story. Example. https://x.com/a`, not the claimed
`Example. (n.d.). a story. Example. https://x.com/a`: the author
position falls back to the literal `[Author]`, not to the category, and
the absent date renders as `[n.d.]`, with brackets. -/
theorem citation_claim_counterexample :
    build_apa_citation (fun _ => none) citeEntry [] =
      "[Author]. ([n.d.]). a story. Example. https://x.com/a" ∧
    ("[Author]. ([n.d.]). a story. Example. https://x.com/a" : String) ≠
      "Example. (n.d.). a story. Example. https://x.com/a" := by
  constructor
  · rfl
  · decide

/-- C6 (amended): for the Article with author unset, source `Example`,
`publishedAt` unset, title `a story` and link `https://x.com/a`, and no
author override, the citation is exactly
`[Author]. ([n.d.]). a story. Example. https://x.com/a`, whatever the
date parser does: with no author and no override the author position is
the literal `[Author]`, an absent date renders `[n.d.]`, and the format
is `<Author>. (<date>). <Title>. <Source>. <Link>`. -/
theorem citation_fallback (pd : String → Option DateTime) :
    build_apa_citation pd citeEntry [] =
      "[Author]. ([n.d.]). a story. Example. https://x.com/a" := rfl

/-! ### C7 — title and link defaults -/

/-- C7: counterexample.  A filtered entry with no `link` field is
normalized with `link = None` (Python `entry.get("link")` with no
default), not the empty string the claim states. -/
theorem link_default_counterexample :
    (normalizeEntry (fun _ => none) "Tech" "https://a.example/feed" none noLinkEntry).link
      = Val.vnone ∧ Val.vnone ≠ Val.vstr "" := by
  refine ⟨rfl, fun h => Val.noConfusion h⟩

/-- C7 (amended): the normalizer takes the raw title, defaulting to the
empty string when the `title` key is absent, and takes the raw link,
leaving it `None` (not the empty string) when the `link` key is absent. -/
theorem title_link_defaults (si : String → Option String) (cat u : String)
    (sn : Option Int) (e : RawEntry)
    (htitle : assocGet "title" e = none) (hlink : assocGet "link" e = none) :
    (normalizeEntry si cat u sn e).title = .vstr "" ∧
    (normalizeEntry si cat u sn e).link = .vnone := by
  unfold normalizeEntry
  simp [pyGetD, pyGet, htitle, hlink]

/-- C7 witness: on the empty entry, the title defaults to `""` and the
link to `None`. -/
theorem title_link_defaults_witness :
    (normalizeEntry (fun _ => none) "Tech" "u" none ([] : RawEntry)).title = .vstr "" ∧
    (normalizeEntry (fun _ => none) "Tech" "u" none ([] : RawEntry)).link = .vnone :=
  title_link_defaults (fun _ => none) "Tech" "u" none [] rfl rfl

/-! ### C3, C10 — published-time extraction -/

/-- Full characterization of `_extract_published`: it never raises, and
its result is decided by the truthiness of the two structured
breakdowns, each converted under its own `try` catch. -/
theorem extract_publishedE_eq (e : RawEntry) :
    extract_publishedE e =
      .ok (match (if pyTruthy (pyGet e "published_parsed") then
                    caught (dtOf (pyGet e "published_parsed"))
                  else if pyTruthy (pyGet e "updated_parsed") then
                    caught (dtOf (pyGet e "updated_parsed"))
                  else none) with
           | some d => (some d, Val.vstr (strftimeYmd d))
           | none => (none, rawFallback e)) := by
  unfold extract_publishedE rawFallback
  cases h1 : pyTruthy (pyGet e "published_parsed") <;>
    cases h2 : pyTruthy (pyGet e "updated_parsed") <;>
      simp [h1, h2, bind, Except.bind, pure, Except.pure] <;>
        cases hc : caught (dtOf (pyGet e "published_parsed")) <;>
          cases hc2 : caught (dtOf (pyGet e "updated_parsed")) <;> simp [hc, hc2]

/-- C3: counterexample.  On an entry whose `published_parsed` breakdown
is present but invalid (month 13), whose `updated_parsed` breakdown
converts successfully, and whose raw `published` string has twenty
characters, the code leaves `publishedAt` unset (the `elif` skips the
`updated` breakdown once `published_parsed` is truthy) and uses the full
raw string as the display, not its first ten characters — against both
the claim's "continue to the next source" and its "first 10 characters"
parts. -/
theorem published_extraction_counterexample :
    extract_published entryBadPub = (none, .vstr "2024-01-02T03:04:05Z") ∧
    dtOf (.vlist [.vint 2023, .vint 5, .vint 6]) = .ok ⟨2023, 5, 6, 0, 0, 0⟩ ∧
    ("2024-01-02T03:04:05Z" : String) ≠ ("2024-01-02T03:04:05Z" : String).take 10 := by
  refine ⟨rfl, rfl, by decide⟩

/-- C3 (amended): published-time extraction never raises; it uses the
structured `published` breakdown whenever that field is truthy — a
failed conversion is treated as "no timestamp" without consulting
`updated` — and the structured `updated` breakdown only when `published`
is absent/falsy; when no timestamp is obtained, `publishedAt` is unset
and the display value is the full raw `published` or `updated` string
field (`""` when neither exists). -/
theorem published_extraction_spec (e : RawEntry) :
    isOkB (extract_publishedE e) = true ∧
    (∀ d, pyTruthy (pyGet e "published_parsed") = true →
      dtOf (pyGet e "published_parsed") = .ok d →
      extract_published e = (some d, .vstr (strftimeYmd d))) ∧
    (pyTruthy (pyGet e "published_parsed") = true →
      dtOf (pyGet e "published_parsed") = .error () →
      extract_published e = (none, rawFallback e)) ∧
    (∀ d, pyTruthy (pyGet e "published_parsed") = false →
      pyTruthy (pyGet e "updated_parsed") = true →
      dtOf (pyGet e "updated_parsed") = .ok d →
      extract_published e = (some d, .vstr (strftimeYmd d))) ∧
    (pyTruthy (pyGet e "published_parsed") = false →
      pyTruthy (pyGet e "updated_parsed") = true →
      dtOf (pyGet e "updated_parsed") = .error () →
      extract_published e = (none, rawFallback e)) ∧
    (pyTruthy (pyGet e "published_parsed") = false →
      pyTruthy (pyGet e "updated_parsed") = false →
      extract_published e = (none, rawFallback e)) := by
  have hE := extract_publishedE_eq e
  refine ⟨?_, ?_, ?_, ?_, ?_, ?_⟩
  · rw [hE]; rfl
  · intro d h1 h2; unfold extract_published; rw [hE]; simp [h1, h2, caught]
  · intro h1 h2; unfold extract_published; rw [hE]; simp [h1, h2, caught]
  · intro d h1 h2 h3; unfold extract_published; rw [hE]; simp [h1, h2, h3, caught]
  · intro h1 h2 h3; unfold extract_published; rw [hE]; simp [h1, h2, h3, caught]
  · intro h1 h2; unfold extract_published; rw [hE]; simp [h1, h2]

/-- C3 witness: the invalid-month entry takes the raw-fallback branch
and the valid entry the timestamp branch. -/
theorem published_extraction_spec_witness :
    extract_published entryBadPub = (none, rawFallback entryBadPub) ∧
    extract_published entryGoodPub =
      (some ⟨2024, 1, 2, 3, 4, 5⟩, .vstr (strftimeYmd ⟨2024, 1, 2, 3, 4, 5⟩)) := by
  constructor
  · exact (published_extraction_spec entryBadPub).2.2.1 rfl rfl
  · exact (published_extraction_spec entryGoodPub).2.1 ⟨2024, 1, 2, 3, 4, 5⟩ rfl rfl

/-- C10: whenever published-time extraction produces a timestamp, the
display string is exactly that timestamp rendered `%Y-%m-%d`, never the
raw feed string — the display is populated in every case, not only as a
fallback. -/
theorem display_from_timestamp (e : RawEntry) (d : DateTime)
    (h : (extract_published e).1 = some d) :
    (extract_published e).2 = .vstr (strftimeYmd d) := by
  have hE := extract_publishedE_eq e
  unfold extract_published at h ⊢
  rw [hE] at h ⊢
  generalize (if pyTruthy (pyGet e "published_parsed") then
                caught (dtOf (pyGet e "published_parsed"))
              else if pyTruthy (pyGet e "updated_parsed") then
                caught (dtOf (pyGet e "updated_parsed"))
              else none) = o at h ⊢
  cases o with
  | none => simp at h
  | some d2 =>
      simp at h ⊢
      rw [h]

/-- C10 witness: a valid six-field breakdown renders as `2024-01-02`. -/
theorem display_from_timestamp_witness :
    (extract_published entryGoodPub).2 = .vstr (strftimeYmd ⟨2024, 1, 2, 3, 4, 5⟩) :=
  display_from_timestamp entryGoodPub ⟨2024, 1, 2, 3, 4, 5⟩ rfl

/-! ### C4 — per-feed item cap -/

/-- C4: when a feed's `max_items` is a positive integer `n` and its url
fetches a list of entries, the feed contributes exactly the first
`min(n, k)` normalized Articles in original document order, where `k`
is the number of entries surviving the keyword filter (`items[:n]`,
no re-sorting). -/
theorem max_items_cap (pt : String → String) (si : String → Option String)
    (pf : String → List RawEntry) (feed : FeedSource) (u : String) (n : Int)
    (es : List RawEntry)
    (hu : feed.url = some u) (hne : u ≠ "")
    (hmax : feed.max_items = some n) (hpos : 0 < n) (hes : pf u = es) :
    processFeed pt si pf feed =
      ((es.filter (keepEntry pt (feed.filters_include.map String.toLower)
          (feed.filters_exclude.map String.toLower))).map
        (normalizeEntry si (feed.category.getD "Uncategorized") u feed.snippet_length)).take
        n.toNat ∧
    (processFeed pt si pf feed).length =
      min n.toNat
        (es.filter (keepEntry pt (feed.filters_include.map String.toLower)
          (feed.filters_exclude.map String.toLower))).length := by
  unfold processFeed feedItems
  rw [hu, hmax]
  simp [hne, hpos, hes, List.length_take, List.length_map]

/-- C4 witness: ten entries, all passing the empty filter, with
`max_items = 3`, contribute exactly `3 = min 3 10` Articles. -/
theorem max_items_cap_witness :
    (processFeed id (fun _ => none) capFetch capSrc).length = 3 ∧
    (3 : Nat) = min 3 10 := by
  constructor
  · have h := max_items_cap id (fun _ => none) capFetch capSrc "https://cap.example/feed" 3
      tenEntries rfl (by decide) rfl (by decide) rfl
    rw [h.2]
    rfl
  · decide

/-! ### C9 — sources without a url are skipped -/

/-- C9: a FeedSource whose `url` is missing or empty is skipped before
any fetch (its contribution is `[]` and is independent of the fetching
capability), and removing it from the configured list leaves the
pipeline's output unchanged. -/
theorem empty_url_skipped (pt : String → String) (si : String → Option String)
    (pf pf2 : String → List RawEntry) (f : FeedSource) (pre post : List FeedSource)
    (hf : f.url = none ∨ f.url = some "") :
    processFeed pt si pf f = [] ∧
    processFeed pt si pf f = processFeed pt si pf2 f ∧
    fetch_and_parse_feeds pt si pf (pre ++ f :: post) =
      fetch_and_parse_feeds pt si pf (pre ++ post) := by
  have hempty : ∀ pfx : String → List RawEntry, processFeed pt si pfx f = [] := by
    intro pfx
    unfold processFeed feedItems
    rcases hf with h | h <;> rw [h] <;> cases f.max_items <;> simp
  refine ⟨hempty pf, by rw [hempty pf, hempty pf2], ?_⟩
  induction pre with
  | nil => simp [fetch_and_parse_feeds, hempty pf]
  | cons g rest ih => simp [fetch_and_parse_feeds, ih]

/-- C9 witness: inserting a url-less source between two real sources
does not change the aggregation output. -/
theorem empty_url_skipped_witness :
    fetch_and_parse_feeds id (fun _ => none) dupFetch [srcA, noUrlSrc, srcB] =
      fetch_and_parse_feeds id (fun _ => none) dupFetch [srcA, srcB] :=
  (empty_url_skipped id (fun _ => none) dupFetch dupFetch noUrlSrc [srcA] [srcB]
    (Or.inl rfl)).2.2

/-! ### C2 — keyword filter -/

/-- `summary_html or ''` is the identity on string-valued summaries. -/
theorem soupArg_vstr (s : String) : soupArg (.vstr s) = s := by
  unfold soupArg pyOr
  cases h : pyTruthy (.vstr s)
  · have hs : s = "" := by
      simp [pyTruthy] at h
      exact (String.isEmpty_iff s).mp h
    subst hs
    simp
  · simp

/-- The two guarded `continue`s of the filter collapse to a single
boolean: keep iff no exclude keyword matches and (include list empty or
some include keyword matches).  The `exclude and …` guard is redundant
because `any` of an empty list is already false. -/
theorem keepEntry_eq (pt : String → String) (inc exc : List String) (e : RawEntry) :
    keepEntry pt inc exc e =
      (!exc.any (fun k => substrB k (filterText pt e)) &&
        (inc.isEmpty || inc.any (fun k => substrB k (filterText pt e)))) := by
  unfold keepEntry
  cases exc with
  | nil =>
      cases hi : inc.isEmpty <;>
        cases ha : inc.any (fun k => substrB k (filterText pt e)) <;> simp [hi, ha]
  | cons k0 ks =>
      cases hx : (k0 :: ks).any (fun k => substrB k (filterText pt e)) <;>
        cases hi : inc.isEmpty <;>
          cases ha : inc.any (fun k => substrB k (filterText pt e)) <;> simp [hx, hi, ha]

/-- C2: for a string-titled entry with string summary HTML, the filter
keeps the entry iff no exclude keyword is a substring of the match text
(the lowercased `title ++ " " ++ plainText summary`) and additionally
the include list is empty or some include keyword is a substring;
keywords are lowercased, so matching is case-insensitive substring
containment, exclusion takes precedence over inclusion, and two empty
lists accept everything. -/
theorem filter_keep_iff (pt : String → String) (incKw excKw : List String) (e : RawEntry)
    (title summ : String)
    (ht : pyGetD e "title" (.vstr "") = .vstr title)
    (hs : summaryHtml e = .vstr summ) :
    keepEntry pt (incKw.map String.toLower) (excKw.map String.toLower) e = true ↔
      ((∀ k ∈ excKw, substrB k.toLower ((title ++ " " ++ pt summ).toLower) = false) ∧
       (incKw = [] ∨ ∃ k ∈ incKw,
          substrB k.toLower ((title ++ " " ++ pt summ).toLower) = true)) := by
  have hft : filterText pt e = (title ++ " " ++ pt summ).toLower := by
    unfold filterText
    rw [ht, hs, soupArg_vstr]
    rfl
  rw [keepEntry_eq, hft]
  simp [List.any_map, Function.comp, List.any_eq_true, List.isEmpty_iff, Bool.not_eq_true']

/-- C2 witness: with `excludeKeywords = ["sports"]` and no include
keywords, the entry titled `Sports roundup` is characterized by the
filter equivalence (and is in fact rejected, since `sports` occurs in
the lowercased title). -/
theorem filter_keep_iff_witness :
    (keepEntry id (([] : List String).map String.toLower)
        ((["sports"] : List String).map String.toLower)
        [("title", .vstr "Sports roundup")] = true ↔
      ((∀ k ∈ (["sports"] : List String),
          substrB k.toLower (("Sports roundup" ++ " " ++ id "").toLower) = false) ∧
       (([] : List String) = [] ∨ ∃ k ∈ ([] : List String),
          substrB k.toLower (("Sports roundup" ++ " " ++ id "").toLower) = true))) :=
  filter_keep_iff id [] ["sports"] [("title", .vstr "Sports roundup")]
    "Sports roundup" "" rfl rfl

/-! ### C5, C8 — thumbnail priority and exception safety -/

/-- Falling through a caught block preserves a later block's success. -/
theorem thumbSeq_isOk (x y : Except Unit (Option Val)) (h : isOkB y = true) :
    isOkB (thumbSeq x y) = true := by
  cases x with
  | ok v =>
      cases v with
      | none => simpa [thumbSeq] using h
      | some u => simp [thumbSeq, isOkB]
  | error e2 => simpa [thumbSeq] using h

/-- The author extractor has no `try`, but every raising operation in it
is guarded, so it never propagates an exception. -/
theorem extract_authorE_isOk (e : RawEntry) : isOkB (extract_authorE e) = true := by
  unfold extract_authorE
  split
  · rfl
  · split
    · rfl
    · cases hv : pyGet e "authors" with
      | vnone => rfl
      | vstr s => rfl
      | vint n => rfl
      | vdict kvs => rfl
      | vlist xs =>
          cases xs with
          | nil => rfl
          | cons a as =>
              cases hB : (isDict a && pyTruthy (dGet a "name")) <;> cases hS : isStr a <;>
                simp [isList, pyTruthy, pySub, isOkB, hB, hS] <;> split <;>
                  first
                  | rfl
                  | (rename_i heq
                     split at heq <;> exact Except.noConfusion heq)

/-- C8: none of the three field extractors ever propagates an exception:
on every raw entry, however shaped, the thumbnail, author and
published-time extractors terminate with an `ok` result (degrading to an
unset value when no source applies). -/
theorem extractors_never_raise (si : String → Option String) (e : RawEntry) :
    isOkB (extract_thumbnailE si e) = true ∧
    isOkB (extract_authorE e) = true ∧
    isOkB (extract_publishedE e) = true := by
  refine ⟨?_, extract_authorE_isOk e, by rw [extract_publishedE_eq e]; rfl⟩
  unfold extract_thumbnailE
  apply thumbSeq_isOk
  apply thumbSeq_isOk
  apply thumbSeq_isOk
  rfl

/-- C5: thumbnail extraction honours the fixed block order
media-thumbnail, media-content, enclosure link, summary `<img>`: a hit
in an earlier block is returned no matter what the later blocks would
yield, and only when the first three blocks all miss (or raise and are
caught) is the summary-`<img>` result — possibly unset — returned. -/
theorem thumbnail_priority (si : String → Option String) (e : RawEntry) :
    (∀ u, thumbA e = .ok (some u) → extract_thumbnailE si e = .ok (some u)) ∧
    (∀ u, noHit (thumbA e) → thumbB e = .ok (some u) →
      extract_thumbnailE si e = .ok (some u)) ∧
    (∀ u, noHit (thumbA e) → noHit (thumbB e) → thumbC e = .ok (some u) →
      extract_thumbnailE si e = .ok (some u)) ∧
    (noHit (thumbA e) → noHit (thumbB e) → noHit (thumbC e) →
      extract_thumbnailE si e = .ok (thumbD si e)) := by
  unfold extract_thumbnailE
  refine ⟨?_, ?_, ?_, ?_⟩
  · intro u h
    rw [h]
    rfl
  · intro u ha hb
    rcases ha with ha | ha <;> rw [ha, hb] <;> rfl
  · intro u ha hb hc
    rcases ha with ha | ha <;> rcases hb with hb | hb <;> rw [ha, hb, hc] <;> rfl
  · intro ha hb hc
    rcases ha with ha | ha <;> rcases hb with hb | hb <;> rcases hc with hc | hc <;>
      rw [ha, hb, hc] <;> rfl

/-- C5 witness: an entry with both a media-thumbnail URL and an inline
summary `<img>` yields the media-thumbnail URL, not the `<img src>`. -/
theorem thumbnail_priority_witness :
    extract_thumbnailE imgAlways thumbBothEntry =
      .ok (some (.vstr "https://cdn.example/mt.jpg")) ∧
    thumbD imgAlways thumbBothEntry = some (.vstr "https://cdn.example/inline.jpg") :=
  ⟨(thumbnail_priority imgAlways thumbBothEntry).1 (.vstr "https://cdn.example/mt.jpg") rfl,
    rfl⟩

end Rss
